import Mathlib

/-!
Verification of the clickup-mcp adapter (a Model Context Protocol server
exposing the ClickUp REST API as callable tools).

The development is a shallow embedding of the two source layers:

* the HTTP client (src/api/client.ts): query-parameter serialization,
  JSON body serialization, the non-2xx error path, and the composite
  workspace-structure aggregation;
* the tool dispatcher (the server entry point): per-tool argument
  reshaping, scope validation for task search, and the catch-all error
  envelope at the dispatch boundary.

JavaScript values flowing into query parameters and JSON bodies are
modelled by the inductive type JVal, which distinguishes the undefined
value from null, since the source treats them differently in several
places (JSON.stringify omits object fields whose value is undefined;
the query serializer skips both).
-/

namespace ClickUpMCP

/-- A JavaScript value as it appears in query-parameter maps and JSON
request/response bodies. Numbers are modelled as integers: every number
the adapter handles (ids, page indices, priorities, epoch-millisecond
timestamps) is integral. -/
inductive JVal where
  | undefined
  | null
  | bool (b : Bool)
  | num (n : Int)
  | str (s : String)
  | arr (elems : List JVal)
  | obj (fields : List (String × JVal))
deriving Repr

/-- The escape sequence of one character inside a JSON string literal
(the characters the adapter actually sends never need the full uXXXX
range). -/
def jsonEscapeChar (c : Char) : String :=
  if c = '"' then "\\\"" else if c = '\\' then "\\\\"
    else if c = '\n' then "\\n" else if c = '\t' then "\\t"
    else if c = '\r' then "\\r" else String.singleton c

/-- Escape a string for inclusion in a JSON document. -/
def jsonEscape (s : String) : String :=
  String.join (s.data.map jsonEscapeChar)

/-- A JSON string literal: quotes around the escaped content. -/
def jsonQuote (s : String) : String := "\"" ++ jsonEscape s ++ "\""

/-- Is this value the JavaScript undefined value? JSON.stringify drops
object fields whose value is undefined. -/
def JVal.isUndefined : JVal → Bool
  | .undefined => true
  | _ => false

/-- Is this value the JavaScript null value? -/
def JVal.isNull : JVal → Bool
  | .null => true
  | _ => false

mutual

/-- JSON.stringify(v) with no spacing, as used for request bodies
(options.body = JSON.stringify(body)). Fields whose value is undefined
are omitted from objects; an undefined element of an array renders as
null, exactly as in JavaScript. -/
def jsonStringify : JVal → String
  | .undefined => "null"
  | .null => "null"
  | .bool b => cond b "true" "false"
  | .num n => toString n
  | .str s => jsonQuote s
  | .arr es => "[" ++ String.intercalate "," (jsonStringifyElems es) ++ "]"
  | .obj fs => "\x7b" ++ String.intercalate "," (jsonStringifyFields fs) ++ "\x7d"

/-- The rendered elements of an array under JSON.stringify. -/
def jsonStringifyElems : List JVal → List String
  | [] => []
  | v :: vs => jsonStringify v :: jsonStringifyElems vs

/-- The rendered key:value entries of an object under JSON.stringify;
fields whose value is undefined are skipped. -/
def jsonStringifyFields : List (String × JVal) → List String
  | [] => []
  | (k, v) :: rest =>
      if v.isUndefined then jsonStringifyFields rest
      else (jsonQuote k ++ ":" ++ jsonStringify v) :: jsonStringifyFields rest

end

/-- The indentation prefix used by JSON.stringify(v, null, 2) at nesting
depth d: two spaces per level. -/
def jsonIndent (d : Nat) : String := String.join (List.replicate d "  ")

mutual

/-- JSON.stringify(v, null, 2) at nesting depth d, as used by the
dispatcher to render tool results (JSON.stringify(result, null, 2)).
Same undefined-handling as the compact form; composites break onto
indented lines and object fields render as "key": value. -/
def jsonStringifyPrettyAt : JVal → Nat → String
  | .undefined, _ => "null"
  | .null, _ => "null"
  | .bool b, _ => cond b "true" "false"
  | .num n, _ => toString n
  | .str s, _ => jsonQuote s
  | .arr [], _ => "[]"
  | .arr es, d => "[\n" ++ String.intercalate ",\n" (jsonPrettyElems es (d + 1))
      ++ "\n" ++ jsonIndent d ++ "]"
  | .obj fs, d =>
      if (fs.filter (fun f => !f.2.isUndefined)).isEmpty then "\x7b\x7d"
      else "\x7b\n" ++ String.intercalate ",\n" (jsonPrettyFields fs (d + 1))
        ++ "\n" ++ jsonIndent d ++ "\x7d"

/-- The rendered, indented elements of a nonempty array under
JSON.stringify with indent 2. -/
def jsonPrettyElems : List JVal → Nat → List String
  | [], _ => []
  | v :: vs, d => (jsonIndent d ++ jsonStringifyPrettyAt v d) :: jsonPrettyElems vs d

/-- The rendered, indented key: value entries of an object under
JSON.stringify with indent 2; fields whose value is undefined are
skipped. -/
def jsonPrettyFields : List (String × JVal) → Nat → List String
  | [], _ => []
  | (k, v) :: rest, d =>
      if v.isUndefined then jsonPrettyFields rest d
      else (jsonIndent d ++ jsonQuote k ++ ": " ++ jsonStringifyPrettyAt v d)
        :: jsonPrettyFields rest d

end

/-- JSON.stringify(v, null, 2) as called by the dispatcher on tool
results (always parsed-JSON values, never the undefined value). -/
def jsonStringifyPretty (v : JVal) : String := jsonStringifyPrettyAt v 0

mutual

/-- The JavaScript String(v) coercion, applied by the query serializer
to each parameter value. An array joins the coercion of its elements
with commas, rendering null and undefined elements as the empty string,
as Array.prototype.toString does. -/
def jsString : JVal → String
  | .undefined => "undefined"
  | .null => "null"
  | .bool b => cond b "true" "false"
  | .num n => toString n
  | .str s => s
  | .arr es => String.intercalate "," (jsStringJoinElems es)
  | .obj _ => "[object Object]"

/-- The element renderings joined by Array.prototype.toString: null and
undefined elements render as the empty string. -/
def jsStringJoinElems : List JVal → List String
  | [] => []
  | v :: vs =>
      (if v.isUndefined || v.isNull then "" else jsString v) :: jsStringJoinElems vs

end

/-- The pairs appended to url.searchParams for one entry of the
query-parameter map (client.ts, request): undefined and null values are
skipped; an array value appends one pair per element under the key with
a square-bracket suffix (the source comment: ClickUp expects array
parameters to have square brackets, e.g. assignees[]=123); any other
value appends a single key=String(value) pair. -/
def queryPairs (key : String) (v : JVal) : List (String × String) :=
  match v with
  | .undefined => []
  | .null => []
  | .arr es => es.map (fun e => (key ++ "[]", jsString e))
  | v => [(key, jsString v)]

/-- Serialization of a whole query-parameter map: the entries are
traversed in order (Object.entries insertion order) and each contributes
its queryPairs. -/
def serializeQuery (qp : List (String × JVal)) : List (String × String) :=
  (qp.map (fun kv => queryPairs kv.1 kv.2)).flatten

/-- Association lookup on a serialized query string: the value of the
first pair carrying the given parameter name. -/
def getParam (q : List (String × String)) (k : String) : Option String :=
  (q.find? (fun e => e.1 == k)).map (fun e => e.2)

/-- Association lookup on a query-parameter map before serialization. -/
def getQP (qp : List (String × JVal)) (k : String) : Option JVal :=
  (qp.find? (fun e => e.1 == k)).map (fun e => e.2)

/-- Association lookup on the fields of a JSON object body. -/
def getField (fs : List (String × JVal)) (k : String) : Option JVal :=
  (fs.find? (fun e => e.1 == k)).map (fun e => e.2)

/-- JavaScript truthiness, as used by the source in guard positions. -/
def jsTruthy : JVal → Bool
  | .undefined => false
  | .null => false
  | .bool b => b
  | .num n => !(n == 0)
  | .str s => !(s == "")
  | .arr _ => true
  | .obj _ => true

/-- Truthiness of an optional string argument, as tested by the
dispatcher guards of the form if (!typedArgs.space_id): an absent value
and the empty string are falsy. -/
def jsTruthyStr : Option String → Bool
  | none => false
  | some s => !(s == "")

/-- Template-literal interpolation of a possibly-absent string, as in
the path expressions of client.ts: a JavaScript undefined value renders
as the literal text undefined. The dispatcher writes typedArgs.team_id!
in several places; the non-null assertion is erased at runtime, so an
absent team_id reaches the template unchanged. -/
def jsTemplate : Option String → String
  | some s => s
  | none => "undefined"

/-- An optional string as a JVal field value (absent becomes the
undefined value). -/
def joptStr : Option String → JVal
  | some s => .str s
  | none => .undefined

/-- An optional integer as a JVal field value. -/
def joptNum : Option Int → JVal
  | some n => .num n
  | none => .undefined

/-- An optional boolean as a JVal field value. -/
def joptBool : Option Bool → JVal
  | some b => .bool b
  | none => .undefined

/-- An optional array as a JVal field value. -/
def joptArr : Option (List JVal) → JVal
  | some l => .arr l
  | none => .undefined

/-! ## The HTTP request layer (client.ts, request) -/

/-- An outgoing HTTP request exactly as the private request method of
ClickUpClient assembles it: the method, the path appended to the fixed
base URL, the serialized query pairs, and the JSON-serialized body when
one was provided. -/
structure HttpReq where
  method : String
  path : String
  query : List (String × String)
  body : Option String
deriving Repr, DecidableEq

/-- What fetch produces for a request: either a transport failure (the
promise rejects, no response object exists) or a response carrying an
HTTP status, its status text, and the JSON-parsed body (the source
always parses the body, on success and on failure alike). -/
inductive FetchOutcome where
  | transportError (msg : String)
  | response (status : Nat) (statusText : String) (data : JVal)

/-- The network is modelled as an oracle from requests to outcomes. -/
def Fetch : Type := HttpReq → FetchOutcome

/-- Build the HttpReq for given method, path, optional JSON body and
optional query-parameter map, mirroring request in client.ts: query
parameters serialize through serializeQuery, and options.body is
JSON.stringify(body) when body is truthy. -/
def buildReq (method path : String) (body : Option JVal)
    (queryParams : Option (List (String × JVal))) : HttpReq :=
  { method := method
    path := path
    query := serializeQuery (queryParams.getD [])
    body := match body with
      | some b => if jsTruthy b then some (jsonStringify b) else none
      | none => none }

/-- The private request method of ClickUpClient: send the request; a
transport failure propagates; a response with a non-ok status (ok means
200 to 299) raises an Error whose message is the literal template
ClickUp API error: status statusText, a newline, and the pretty-printed
response body; an ok status returns the parsed body. -/
def request (fetch : Fetch) (method path : String) (body : Option JVal)
    (queryParams : Option (List (String × JVal))) : Except String JVal :=
  match fetch (buildReq method path body queryParams) with
  | .transportError m => .error m
  | .response status statusText data =>
      if 200 ≤ status ∧ status ≤ 299 then .ok data
      else .error ("ClickUp API error: " ++ toString status ++ " " ++ statusText
        ++ "\n" ++ jsonStringifyPretty data)

/-! ## Task listing and search (client.ts, listTasks and searchTasks)

The request types below originate in types.ts, which only declares field
names and optionality; the fields are fixed by their construction sites
in the dispatcher and their use in client.ts. Array-typed filters carry
raw JSON values, as the untyped argument bag does at runtime. -/

/-- Parameters of listTasks. The dispatcher builds this object with the
keys in this insertion order. -/
structure ListTasksRequest where
  page : Option Int
  archived : Option Bool
  include_closed : Option Bool
  assignees : Option (List JVal)
  statuses : Option (List JVal)
  tags : Option (List JVal)
  due_date_gt : Option Int
  due_date_lt : Option Int
deriving Repr

/-- Parameters of searchTasks. The dispatcher builds the first eight
keys in this insertion order; the scope-narrowing id arrays are assigned
afterwards, hence appear last. -/
structure SearchTasksRequest where
  query : Option String
  page : Option Int
  include_closed : Option Bool
  assignees : Option (List JVal)
  statuses : Option (List JVal)
  tags : Option (List JVal)
  due_date_gt : Option Int
  due_date_lt : Option Int
  space_ids : Option (List JVal)
  folder_ids : Option (List JVal)
  list_ids : Option (List JVal)
deriving Repr

/-- The query-parameter map listTasks passes to request: the caller
parameters spread first, with archived, page and include_closed
overwritten by their defaulted values (params?.archived ?? false,
params?.page ?? 0, params?.include_closed ?? false). -/
def listTasksQueryParams (p : ListTasksRequest) : List (String × JVal) :=
  [ ("page", .num (p.page.getD 0)),
    ("archived", .bool (p.archived.getD false)),
    ("include_closed", .bool (p.include_closed.getD false)),
    ("assignees", joptArr p.assignees),
    ("statuses", joptArr p.statuses),
    ("tags", joptArr p.tags),
    ("due_date_gt", joptNum p.due_date_gt),
    ("due_date_lt", joptNum p.due_date_lt) ]

/-- listTasks: GET /list/listId/task with the defaulted query map. -/
def listTasks (fetch : Fetch) (listId : String) (p : ListTasksRequest) :
    Except String JVal :=
  request fetch "GET" ("/list/" ++ listId ++ "/task") none (some (listTasksQueryParams p))

/-- The query-parameter map searchTasks passes to request: the caller
parameters spread first, with page and include_closed overwritten by
their defaulted values (params.page ?? 0, params.include_closed ??
false). searchTasks applies no default to any other field. -/
def searchTasksQueryParams (p : SearchTasksRequest) : List (String × JVal) :=
  [ ("query", joptStr p.query),
    ("page", .num (p.page.getD 0)),
    ("include_closed", .bool (p.include_closed.getD false)),
    ("assignees", joptArr p.assignees),
    ("statuses", joptArr p.statuses),
    ("tags", joptArr p.tags),
    ("due_date_gt", joptNum p.due_date_gt),
    ("due_date_lt", joptNum p.due_date_lt),
    ("space_ids", joptArr p.space_ids),
    ("folder_ids", joptArr p.folder_ids),
    ("list_ids", joptArr p.list_ids) ]

/-- The request searchTasks issues for a team id and parameters:
GET /team/teamId/task with the defaulted query map. -/
def searchTasksHttpReq (teamId : String) (p : SearchTasksRequest) : HttpReq :=
  buildReq "GET" ("/team/" ++ teamId ++ "/task") none (some (searchTasksQueryParams p))

/-- searchTasks: GET /team/teamId/task with the defaulted query map. -/
def searchTasks (fetch : Fetch) (teamId : String) (p : SearchTasksRequest) :
    Except String JVal :=
  request fetch "GET" ("/team/" ++ teamId ++ "/task") none (some (searchTasksQueryParams p))

/-! ## The tool dispatcher (server entry point)

Incoming tool arguments are an untyped JSON bag cast per branch, without
runtime validation; ToolArgs carries every field any branch reads, each
optional. Array-valued arguments keep their raw JSON element values. -/

/-- The argument bag of a tool invocation. -/
structure ToolArgs where
  task_id : Option String := none
  list_id : Option String := none
  name : Option String := none
  description : Option String := none
  markdown_description : Option String := none
  status : Option String := none
  parent : Option String := none
  query : Option String := none
  scope : Option String := none
  team_id : Option String := none
  space_id : Option String := none
  folder_id : Option String := none
  comment_text : Option String := none
  depends_on : Option String := none
  dependency_of : Option String := none
  assignees : Option (List JVal) := none
  statuses : Option (List JVal) := none
  tags : Option (List JVal) := none
  assignees_add : Option (List JVal) := none
  assignees_rem : Option (List JVal) := none
  tags_add : Option (List JVal) := none
  tags_rem : Option (List JVal) := none
  priority : Option Int := none
  due_date : Option Int := none
  time_estimate : Option Int := none
  start_date : Option Int := none
  page : Option Int := none
  due_date_gt : Option Int := none
  due_date_lt : Option Int := none
  assignee : Option Int := none
  notify_all : Option Bool := none
  archived : Option Bool := none
  include_closed : Option Bool := none
deriving Repr

/-- The body the create-task branch passes to createTask: an object
literal naming every field, absent arguments appearing as the undefined
value (and hence omitted by JSON serialization). -/
def createTaskBody (a : ToolArgs) : JVal :=
  .obj [ ("name", joptStr a.name),
         ("description", joptStr a.description),
         ("markdown_description", joptStr a.markdown_description),
         ("assignees", joptArr a.assignees),
         ("tags", joptArr a.tags),
         ("status", joptStr a.status),
         ("priority", joptNum a.priority),
         ("due_date", joptNum a.due_date),
         ("time_estimate", joptNum a.time_estimate),
         ("start_date", joptNum a.start_date),
         ("notify_all", joptBool a.notify_all),
         ("parent", joptStr a.parent) ]

/-- One optional entry of a partial-update object: a key is added only
when the argument is present, mirroring the guarded assignments
if (typedArgs.field !== undefined) updates.field = typedArgs.field. -/
def optEntry (key : String) (f : α → JVal) : Option α → List (String × JVal)
  | some v => [(key, f v)]
  | none => []

/-- The partial-update object the update-task branch assembles, field
guards and insertion order exactly as in the source: eight scalar fields
guarded by strict inequality with undefined, then assignees collapsing
assignees_add and assignees_rem into one nested object when at least one
side is present (arrays are always truthy in JavaScript, so the source
truthiness guards coincide with presence for array-typed arguments),
then tags likewise. -/
def buildUpdatePayload (a : ToolArgs) : List (String × JVal) :=
  optEntry "name" JVal.str a.name
  ++ optEntry "description" JVal.str a.description
  ++ optEntry "markdown_description" JVal.str a.markdown_description
  ++ optEntry "status" JVal.str a.status
  ++ optEntry "priority" JVal.num a.priority
  ++ optEntry "due_date" JVal.num a.due_date
  ++ optEntry "time_estimate" JVal.num a.time_estimate
  ++ optEntry "archived" JVal.bool a.archived
  ++ (if a.assignees_add.isSome || a.assignees_rem.isSome then
        [("assignees", JVal.obj
          (optEntry "add" JVal.arr a.assignees_add
            ++ optEntry "rem" JVal.arr a.assignees_rem))]
      else [])
  ++ (if a.tags_add.isSome || a.tags_rem.isSome then
        [("tags", JVal.obj
          (optEntry "add" JVal.arr a.tags_add
            ++ optEntry "rem" JVal.arr a.tags_rem))]
      else [])

/-- The fields of the body the add-dependency branch passes to
addDependency: both direction fields are written unconditionally,
absent arguments appearing as the undefined value. No guard requires
either side to be present. -/
def depBodyFields (a : ToolArgs) : List (String × JVal) :=
  [ ("depends_on", joptStr a.depends_on),
    ("dependency_of", joptStr a.dependency_of) ]

/-- The body object of the add-dependency branch. -/
def depBody (a : ToolArgs) : JVal := .obj (depBodyFields a)

/-- The comment body the add-comment branch passes to createComment. -/
def commentBody (a : ToolArgs) : JVal :=
  .obj [ ("comment_text", joptStr a.comment_text),
         ("assignee", joptNum a.assignee),
         ("notify_all", joptBool a.notify_all) ]

/-- The search parameters the search-task branch assembles before its
scope switch: filters copied from the argument bag, scope id arrays not
yet assigned. -/
def searchParamsOf (a : ToolArgs) : SearchTasksRequest :=
  { query := a.query
    page := a.page
    include_closed := a.include_closed
    assignees := a.assignees
    statuses := a.statuses
    tags := a.tags
    due_date_gt := a.due_date_gt
    due_date_lt := a.due_date_lt
    space_ids := none
    folder_ids := none
    list_ids := none }

/-- The scope switch of the search-task branch: each scope guards only
its own identifier with a truthiness test and throws a descriptive
Error when it is falsy; the workspace scope guards team_id; the space,
folder and list scopes then call searchTasks with typedArgs.team_id!
(unchecked) and the singleton id array for their scope; any other scope
value, including an absent one, throws Invalid scope. On success the
result is the team-id string handed to searchTasks together with the
final parameter object. -/
def dispatchSearchTasks (a : ToolArgs) :
    Except String (String × SearchTasksRequest) :=
  let searchParams := searchParamsOf a
  match a.scope with
  | some "workspace" =>
      if !jsTruthyStr a.team_id then .error "team_id is required for workspace scope"
      else .ok (jsTemplate a.team_id, searchParams)
  | some "space" =>
      if !jsTruthyStr a.space_id then .error "space_id is required for space scope"
      else .ok (jsTemplate a.team_id,
        { searchParams with space_ids := some [JVal.str (a.space_id.getD "")] })
  | some "folder" =>
      if !jsTruthyStr a.folder_id then .error "folder_id is required for folder scope"
      else .ok (jsTemplate a.team_id,
        { searchParams with folder_ids := some [JVal.str (a.folder_id.getD "")] })
  | some "list" =>
      if !jsTruthyStr a.list_id then .error "list_id is required for list scope"
      else .ok (jsTemplate a.team_id,
        { searchParams with list_ids := some [JVal.str (a.list_id.getD "")] })
  | _ => .error ("Invalid scope: " ++ jsTemplate a.scope)

/-- The parameters of listTasks as the list-tasks branch builds them. -/
def listParamsOf (a : ToolArgs) : ListTasksRequest :=
  { page := a.page
    archived := a.archived
    include_closed := a.include_closed
    assignees := a.assignees
    statuses := a.statuses
    tags := a.tags
    due_date_gt := a.due_date_gt
    due_date_lt := a.due_date_lt }

/-- Property access v.k on a parsed JSON value: the field value of an
object, the undefined value when the key is missing or the value is not
an object. -/
def jsGet (v : JVal) (k : String) : JVal :=
  match v with
  | .obj fs => ((fs.find? (fun f => f.1 == k)).map (fun f => f.2)).getD .undefined
  | _ => .undefined

/-- The JavaScript expression a or-else b (written with two vertical
bars in the source, as in task.dependencies or-else the empty array). -/
def jsOrElse (v w : JVal) : JVal := if jsTruthy v then v else w

/-- The domain-operation layer as the dispatcher sees it: one function
per ClickUpClient method the tool branches call, each returning either a
raised error message or a parsed JSON result. Universally quantifying
over this record quantifies over every possible downstream behaviour,
including transport failures, API errors and malformed backend data. -/
structure Client where
  createTask : String → JVal → Except String JVal
  getTask : String → Except String JVal
  updateTask : String → JVal → Except String JVal
  deleteTask : String → Except String JVal
  listTasks : String → ListTasksRequest → Except String JVal
  searchTasks : String → SearchTasksRequest → Except String JVal
  createComment : String → JVal → Except String JVal
  getComments : String → Except String JVal
  addDependency : String → JVal → Except String JVal
  deleteDependency : String → List (String × JVal) → Except String JVal
  getWorkspaceStructure : Except String JVal

/-- One item of a tool response. -/
structure ContentItem where
  type : String
  text : String
deriving Repr, DecidableEq

/-- The protocol response envelope: the success returns of the handler
carry no isError key, which reads as false. -/
structure ToolResponse where
  content : List ContentItem
  isError : Bool
deriving Repr, DecidableEq

/-- The body of the try block of the tool-call handler: the switch over
tool names. Each branch reshapes arguments, calls its domain operation
and renders the success text; an unknown name throws. An error anywhere
short-circuits to the catch clause of handleToolCall. -/
def dispatchTool (c : Client) (name : String) (a : ToolArgs) :
    Except String String :=
  match name with
  | "clickup_create_task" => do
      let task ← c.createTask (jsTemplate a.list_id) (createTaskBody a)
      pure (jsonStringifyPretty task)
  | "clickup_get_task" => do
      let task ← c.getTask (jsTemplate a.task_id)
      pure (jsonStringifyPretty task)
  | "clickup_update_task" => do
      let task ← c.updateTask (jsTemplate a.task_id) (.obj (buildUpdatePayload a))
      pure (jsonStringifyPretty task)
  | "clickup_delete_task" => do
      let _ ← c.deleteTask (jsTemplate a.task_id)
      pure ("Task " ++ jsTemplate a.task_id ++ " has been deleted successfully.")
  | "clickup_list_tasks" => do
      let response ← c.listTasks (jsTemplate a.list_id) (listParamsOf a)
      pure (jsonStringifyPretty response)
  | "clickup_search_tasks" => do
      let tp ← dispatchSearchTasks a
      let response ← c.searchTasks tp.1 tp.2
      pure (jsonStringifyPretty response)
  | "clickup_add_comment" => do
      let comment ← c.createComment (jsTemplate a.task_id) (commentBody a)
      pure (jsonStringifyPretty comment)
  | "clickup_list_comments" => do
      let response ← c.getComments (jsTemplate a.task_id)
      pure (jsonStringifyPretty response)
  | "clickup_add_dependency" => do
      let dependency ← c.addDependency (jsTemplate a.task_id) (depBody a)
      pure (jsonStringifyPretty dependency)
  | "clickup_remove_dependency" => do
      let _ ← c.deleteDependency (jsTemplate a.task_id)
        [("depends_on", joptStr a.depends_on), ("dependency_of", joptStr a.dependency_of)]
      pure ("Dependency removed successfully from task " ++ jsTemplate a.task_id)
  | "clickup_list_dependencies" => do
      let task ← c.getTask (jsTemplate a.task_id)
      pure (jsonStringifyPretty (.obj
        [ ("task_id", jsGet task "id"),
          ("task_name", jsGet task "name"),
          ("dependencies", jsOrElse (jsGet task "dependencies") (.arr [])),
          ("linked_tasks", jsOrElse (jsGet task "linked_tasks") (.arr [])) ]))
  | "clickup_get_workspace_structure" => do
      let structure_ ← c.getWorkspaceStructure
      pure (jsonStringifyPretty structure_)
  | other => .error ("Unknown tool: " ++ other)

/-- The names in the static tool catalog. -/
def toolNames : List String :=
  [ "clickup_create_task", "clickup_get_task", "clickup_update_task",
    "clickup_delete_task", "clickup_list_tasks", "clickup_search_tasks",
    "clickup_add_comment", "clickup_list_comments", "clickup_add_dependency",
    "clickup_remove_dependency", "clickup_list_dependencies",
    "clickup_get_workspace_structure" ]

/-- The tool-call handler: the try/catch boundary. A successful branch
wraps its text in a single text content item; any error thrown inside
the try block is caught and rendered as a single text item reading
Error: message, with isError set. -/
def handleToolCall (c : Client) (name : String) (a : ToolArgs) : ToolResponse :=
  match dispatchTool c name a with
  | .ok text => { content := [⟨"text", text⟩], isError := false }
  | .error e => { content := [⟨"text", "Error: " ++ e⟩], isError := true }

/-! ## Workspace-structure aggregation (client.ts, getWorkspaceStructure)

This part of the client is modelled over a typed backend oracle keyed by
the identifiers of the fetch endpoints it composes. Promise.all in the
source assembles its result array by the index of each input promise,
not by completion time, so a deterministic traversal in request order is
the faithful rendering; an Except-valued traversal also matches the
rejection behaviour (the composite fails when a component fails). -/

/-- A team as returned by GET /team. -/
structure TeamInfo where
  id : String
  name : String
  color : String
  avatar : String
deriving Repr, DecidableEq

/-- A space as returned by GET /team/id/space. -/
structure SpaceInfo where
  id : String
  name : String
deriving Repr, DecidableEq

/-- A list as returned by the list endpoints. -/
structure ListInfo where
  id : String
  name : String
deriving Repr, DecidableEq

/-- A folder as returned by GET /space/id/folder, which already embeds
its lists (the lists field is optional in the response type). -/
structure FolderInfo where
  id : String
  name : String
  orderindex : Int
  task_count : String
  lists : Option (List ListInfo)
deriving Repr, DecidableEq

/-- The backend as getWorkspaceStructure sees it: one oracle per
endpoint it fetches, each able to fail with an error. -/
structure WsBackend where
  authorizedTeams : Except String (List TeamInfo)
  spaces : String → Except String (List SpaceInfo)
  spaceLists : String → Except String (List ListInfo)
  spaceFolders : String → Except String (List FolderInfo)

/-- getFolders: the underlying GET is wrapped in try/catch and any
error whatsoever is absorbed into the empty folder list. -/
def getFolders (b : WsBackend) (spaceId : String) : List FolderInfo :=
  match b.spaceFolders spaceId with
  | .ok fs => fs
  | .error _ => []

/-- getLists: the underlying GET with no error handling of its own, so
failures propagate to the caller. -/
def getLists (b : WsBackend) (spaceId : String) : Except String (List ListInfo) :=
  b.spaceLists spaceId

/-- A folder of the assembled output, reduced to id, name and the
embedded lists reduced to id and name. -/
structure FolderOut where
  id : String
  name : String
  lists : List ListInfo
deriving Repr, DecidableEq

/-- A space of the assembled output. -/
structure SpaceOut where
  id : String
  name : String
  folders : List FolderOut
  lists : List ListInfo
deriving Repr, DecidableEq

/-- A team of the assembled output. The source spreads the fetched team
object, so the color and avatar fields ride along. -/
structure TeamOut where
  id : String
  name : String
  color : String
  avatar : String
  spaces : List SpaceOut
deriving Repr, DecidableEq

/-- The per-space body of getWorkspaceStructure: fetch the folders of
the space (failures absorbed into the empty list), reduce each folder
and its embedded lists to id and name, fetch all lists of the space,
collect into a set the ids of lists embedded in any folder, and keep as
folderless exactly the space lists whose id is not in that set. -/
def assembleSpace (b : WsBackend) (space : SpaceInfo) : Except String SpaceOut := do
  let folders := getFolders b space.id
  let foldersWithLists := folders.map (fun folder =>
    { id := folder.id
      name := folder.name
      lists := (folder.lists.getD []).map (fun l => { id := l.id, name := l.name : ListInfo })
      : FolderOut })
  let allSpaceLists ← getLists b space.id
  let listsInFolders := (folders.map (fun folder => (folder.lists.getD []).map (fun l => l.id))).flatten
  let folderlessLists := allSpaceLists.filter (fun l => !listsInFolders.contains l.id)
  pure { id := space.id
         name := space.name
         folders := foldersWithLists
         lists := folderlessLists }

/-- getWorkspaceStructure: fetch the teams, then per team its spaces,
then per space its folder and list composition, and re-nest the results
in the order of the original responses. -/
def getWorkspaceStructure (b : WsBackend) : Except String (List TeamOut) := do
  let teams ← b.authorizedTeams
  teams.mapM (fun team => do
    let spaces ← b.spaces team.id
    let spacesWithFoldersAndLists ← spaces.mapM (fun space => assembleSpace b space)
    pure { id := team.id
           name := team.name
           color := team.color
           avatar := team.avatar
           spaces := spacesWithFoldersAndLists : TeamOut })

/-! ## Specification-side restatement of the workspace tree

The definitions below follow the wording of the specification for the
workspace-structure assembly, to be compared with the code-side
getWorkspaceStructure: each folder appears with its embedded lists
reduced to id and name, and the folderless lists of a space are exactly
all space lists minus those whose identifier appears in any folder's
embedded list set. -/

/-- A folder of the output as the specification words it: the folder
reduced to id and name, its embedded lists reduced to id and name. -/
def specFolderOut (f : FolderInfo) : FolderOut :=
  { id := f.id
    name := f.name
    lists := (f.lists.getD []).map (fun l => { id := l.id, name := l.name : ListInfo }) }

/-- The folderless lists as the specification words them: all space
lists minus those whose identifier appears in the embedded list set of
any folder. -/
def specFolderlessLists (folders : List FolderInfo) (allLists : List ListInfo) :
    List ListInfo :=
  allLists.filter (fun l =>
    !(folders.any (fun f => (f.lists.getD []).any (fun e => l.id == e.id))))

/-- A space of the output as the specification words it. -/
def specSpaceOut (foldersOf : String → List FolderInfo)
    (listsOf : String → List ListInfo) (s : SpaceInfo) : SpaceOut :=
  { id := s.id
    name := s.name
    folders := (foldersOf s.id).map specFolderOut
    lists := specFolderlessLists (foldersOf s.id) (listsOf s.id) }

/-- The whole workspace tree as the specification words it: teams in
fetch order, each carrying its spaces in fetch order. -/
def specWorkspaceTree (teams : List TeamInfo)
    (spacesOf : String → List SpaceInfo)
    (foldersOf : String → List FolderInfo)
    (listsOf : String → List ListInfo) : List TeamOut :=
  teams.map (fun t =>
    { id := t.id
      name := t.name
      color := t.color
      avatar := t.avatar
      spaces := (spacesOf t.id).map (specSpaceOut foldersOf listsOf) })

/-! ## Concrete instances used by witnesses and counterexamples -/

/-- A backend in which every operation of the client succeeds and
returns the empty JSON object. -/
def okClient : Client :=
  { createTask := fun _ _ => .ok (.obj [])
    getTask := fun _ => .ok (.obj [])
    updateTask := fun _ _ => .ok (.obj [])
    deleteTask := fun _ => .ok (.obj [])
    listTasks := fun _ _ => .ok (.obj [])
    searchTasks := fun _ _ => .ok (.obj [])
    createComment := fun _ _ => .ok (.obj [])
    getComments := fun _ => .ok (.obj [])
    addDependency := fun _ _ => .ok (.obj [])
    deleteDependency := fun _ _ => .ok (.obj [])
    getWorkspaceStructure := .ok (.obj []) }

/-- A search invocation with scope space, a space id, and no team id. -/
def argsSpaceNoTeam : ToolArgs := { scope := some "space", space_id := some "s1" }

/-- A search invocation with scope space and no space id. -/
def argsSpaceNoSpaceId : ToolArgs := { scope := some "space", team_id := some "t1" }

/-- A search invocation with scope list, a list id and a team id, as in
the specification example. -/
def argsListScope : ToolArgs :=
  { scope := some "list", list_id := some "901234567", team_id := some "team1" }

/-- An add-dependency invocation supplying neither direction field. -/
def argsDepNeither : ToolArgs := { task_id := some "task1" }

/-- The keys a partial-update object can possibly contain. -/
def updateTaskKeys : List String :=
  [ "name", "description", "markdown_description", "status", "priority",
    "due_date", "time_estimate", "archived", "assignees", "tags" ]

/-- An update invocation supplying a new name, one assignee to add and
one tag to remove, everything else omitted. -/
def argsUpdateSample : ToolArgs :=
  { task_id := some "task9", name := some "N",
    assignees_add := some [JVal.num 1], tags_rem := some [JVal.str "x"] }

/-- A network oracle answering every request with status 404 Not Found
and the JSON body carrying err: Task not found. -/
def fetch404 : Fetch :=
  fun _ => .response 404 "Not Found" (.obj [("err", .str "Task not found")])

/-- A backend whose folder fetch always fails while everything else
succeeds. -/
def failingFoldersBackend : WsBackend :=
  { authorizedTeams := .ok []
    spaces := fun _ => .ok []
    spaceLists := fun _ => .ok [ { id := "l1", name := "L1" } ]
    spaceFolders := fun _ => .error "no folder feature" }

/-- A backend whose space-list fetch always fails while everything else
succeeds. -/
def failingListsBackend : WsBackend :=
  { authorizedTeams := .ok []
    spaces := fun _ => .ok []
    spaceLists := fun _ => .error "boom"
    spaceFolders := fun _ => .ok [] }

/-- A listTasks call with every parameter unset. -/
def defaultListParams : ListTasksRequest :=
  ⟨none, none, none, none, none, none, none, none⟩

/-- A searchTasks call with every parameter unset. -/
def defaultSearchParams : SearchTasksRequest :=
  ⟨none, none, none, none, none, none, none, none, none, none, none⟩

/-- The example workspace backend of the claim: two teams T1 and T2,
each with one space S containing one folder F holding list L1, and one
folderless list L2 (the all-lists endpoint returns both L1 and L2). -/
def exWsTeams : List TeamInfo :=
  [ { id := "t1", name := "T1", color := "c1", avatar := "a1" },
    { id := "t2", name := "T2", color := "c2", avatar := "a2" } ]

/-- The per-team spaces of the example workspace. -/
def exWsSpaces : String → List SpaceInfo :=
  fun _ => [ { id := "s", name := "S" } ]

/-- The per-space folders of the example workspace. -/
def exWsFolders : String → List FolderInfo :=
  fun _ => [ { id := "f", name := "F", orderindex := 0, task_count := "1",
               lists := some [ { id := "l1", name := "L1" } ] } ]

/-- The per-space all-lists responses of the example workspace. -/
def exWsLists : String → List ListInfo :=
  fun _ => [ { id := "l1", name := "L1" }, { id := "l2", name := "L2" } ]

/-- A backend whose fetches all succeed, built from pure response
functions. -/
def okWsBackend (teams : List TeamInfo) (spacesOf : String → List SpaceInfo)
    (foldersOf : String → List FolderInfo)
    (listsOf : String → List ListInfo) : WsBackend :=
  { authorizedTeams := .ok teams
    spaces := fun tid => .ok (spacesOf tid)
    spaceLists := fun sid => .ok (listsOf sid)
    spaceFolders := fun sid => .ok (foldersOf sid) }

/-! # Helper lemmas -/

/-- List.mapM over a function that always succeeds with a pure value is
the successful map. -/
theorem mapM_ok_map {α β : Type} (g : α → β) (l : List α) :
    List.mapM (fun a => (Except.ok (g a) : Except String β)) l
      = Except.ok (l.map g) := by
  induction l with
  | nil => rfl
  | cons a l ih => rw [List.mapM_cons, ih]; rfl

/-- Membership in a flattened map of embedded list ids, phrased as the
nested any of the specification wording. -/
theorem contains_flatten_ids (folders : List FolderInfo) (x : String) :
    ((folders.map (fun f => (f.lists.getD []).map (fun l => l.id))).flatten.contains x)
      = folders.any (fun f => (f.lists.getD []).any (fun e => x == e.id)) := by
  induction folders with
  | nil => rfl
  | cons f fs ih =>
      simp only [List.map_cons, List.flatten_cons, List.any_cons, ← ih]
      rw [Bool.eq_iff_iff]
      simp only [List.contains_eq_any_beq, List.any_append, Bool.or_eq_true,
        List.any_eq_true, List.mem_map, beq_iff_eq]
      constructor
      · rintro (⟨y, ⟨e, he, rfl⟩, hx⟩ | h)
        · exact Or.inl ⟨e, he, hx⟩
        · exact Or.inr h
      · rintro (⟨e, he, hx⟩ | h)
        · exact Or.inl ⟨e.id, ⟨e, he, rfl⟩, hx⟩
        · exact Or.inr h

/-- The per-space assembly over a backend whose list fetch succeeds
computes exactly the space of the specification wording. -/
theorem assembleSpace_okBackend (teams : List TeamInfo)
    (spacesOf : String → List SpaceInfo) (foldersOf : String → List FolderInfo)
    (listsOf : String → List ListInfo) (s : SpaceInfo) :
    assembleSpace (okWsBackend teams spacesOf foldersOf listsOf) s
      = Except.ok (specSpaceOut foldersOf listsOf s) := by
  show Except.ok _ = _
  unfold specSpaceOut specFolderOut specFolderlessLists
  congr 1
  congr 1
  apply List.filter_congr
  intro l _
  rw [show ((getFolders (okWsBackend teams spacesOf foldersOf listsOf) s.id)
      = foldersOf s.id) from rfl]
  rw [contains_flatten_ids]

/-- getField distributes over appended field segments. -/
theorem getField_append (l1 l2 : List (String × JVal)) (k : String) :
    getField (l1 ++ l2) k = (getField l1 k).or (getField l2 k) := by
  unfold getField
  rw [List.find?_append]
  cases l1.find? (fun e => e.1 == k) <;> simp

/-- Looking up an optional entry under its own key yields exactly the
mapped argument. -/
theorem getField_optEntry_self (k : String) (f : α → JVal) (o : Option α) :
    getField (optEntry k f o) k = o.map f := by
  cases o <;> simp [optEntry, getField]

/-- Looking up an optional entry under a different key yields nothing. -/
theorem getField_optEntry_ne {k key : String} (h : ¬ key = k) (f : α → JVal)
    (o : Option α) :
    getField (optEntry key f o) k = none := by
  cases o <;> simp [optEntry, getField, h]

/-- Looking up a conditional singleton entry under its own key. -/
theorem getField_ite_self {c : Prop} [Decidable c] (k : String) (v : JVal) :
    getField (if c then [(k, v)] else []) k = if c then some v else none := by
  split <;> simp [getField]

/-- Looking up a conditional singleton entry under a different key. -/
theorem getField_ite_ne {c : Prop} [Decidable c] {k key : String} (h : ¬ key = k)
    (v : JVal) :
    getField (if c then [(key, v)] else []) k = none := by
  split <;> simp [getField, h]

/-- A member of an optional entry segment is the entry itself. -/
theorem mem_optEntry {k : String} {v : JVal} {key : String} {f : α → JVal}
    {o : Option α} (h : (k, v) ∈ optEntry key f o) :
    k = key ∧ ∃ x, v = f x := by
  cases o with
  | none => simp [optEntry] at h
  | some x =>
      simp [optEntry] at h
      exact ⟨h.1, x, h.2⟩

/-! # Claim theorems -/

/-- C1, counterexample: the claim states that array-valued query
parameters serialize with no bracket suffix on the key, for example
assignees=123 and assignees=456. The code (client.ts, request) appends
each element under the key with a square-bracket suffix, so the pairs
produced for assignees with value the array 123, 456 carry the key
assignees[] and not the key assignees. -/
theorem C1_no_bracket_counterexample :
    serializeQuery [("assignees", JVal.arr [JVal.num 123, JVal.num 456])]
      = [("assignees[]", "123"), ("assignees[]", "456")]
    ∧ serializeQuery [("assignees", JVal.arr [JVal.num 123, JVal.num 456])]
      ≠ [("assignees", "123"), ("assignees", "456")] :=
  ⟨by decide, by decide⟩

/-- C1, amended: for each key whose value is an array, serialization
appends exactly one pair per array element in original array order,
under the key with a square-bracket suffix (key[]=element); scalar
values are appended once under the unsuffixed key; undefined and null
values are omitted entirely. In particular a search_tasks call with
scope list and list_id 901234567 produces a GET to /team/team1/task
whose query contains the parameter list_ids[] (not list_ids) with value
901234567. -/
theorem C1_array_query_serialization_amended :
    (∀ (k : String) (vs : List JVal) (rest : List (String × JVal)),
      serializeQuery ((k, JVal.arr vs) :: rest)
        = vs.map (fun v => (k ++ "[]", jsString v)) ++ serializeQuery rest)
    ∧ (∀ (k s : String) (rest : List (String × JVal)),
      serializeQuery ((k, JVal.str s) :: rest) = (k, s) :: serializeQuery rest)
    ∧ (∀ (k : String) (n : Int) (rest : List (String × JVal)),
      serializeQuery ((k, JVal.num n) :: rest) = (k, toString n) :: serializeQuery rest)
    ∧ (∀ (k : String) (rest : List (String × JVal)),
      serializeQuery ((k, JVal.undefined) :: rest) = serializeQuery rest)
    ∧ (∀ (k : String) (rest : List (String × JVal)),
      serializeQuery ((k, JVal.null) :: rest) = serializeQuery rest)
    ∧ (∃ tp, dispatchSearchTasks argsListScope = Except.ok tp
        ∧ tp.1 = "team1"
        ∧ (searchTasksHttpReq tp.1 tp.2).path = "/team/team1/task"
        ∧ ("list_ids[]", "901234567") ∈ (searchTasksHttpReq tp.1 tp.2).query
        ∧ ("list_ids", "901234567") ∉ (searchTasksHttpReq tp.1 tp.2).query) := by
  refine ⟨?_, ?_, ?_, ?_, ?_, ?_⟩
  · intro k vs rest
    simp [serializeQuery, queryPairs]
  · intro k s rest
    simp [serializeQuery, queryPairs, jsString]
  · intro k n rest
    simp [serializeQuery, queryPairs, jsString]
  · intro k rest
    simp [serializeQuery, queryPairs]
  · intro k rest
    simp [serializeQuery, queryPairs]
  · exact ⟨("team1",
      { query := none, page := none, include_closed := none,
        assignees := none, statuses := none, tags := none,
        due_date_gt := none, due_date_lt := none,
        space_ids := none, folder_ids := none,
        list_ids := some [JVal.str "901234567"] }),
      rfl, rfl, rfl, by decide, by decide⟩

/-- C2: for every set of successful backend responses, the workspace
tree getWorkspaceStructure assembles equals the tree the specification
words describe: teams and spaces in original fetch order (the assembly
is a deterministic function of the responses, so it cannot depend on
network completion order), each folder carrying its embedded lists
reduced to id and name, and the folderless lists of each space being
exactly the all-lists response minus the lists whose id appears in any
folder's embedded lists. The second conjunct instantiates the claim
example: teams T1 and T2, each with space S containing folder F holding
L1 and folderless list L2; L1 is placed under F and L2 under the lists
of S, for both teams. -/
theorem C2_workspace_structure_assembly :
    (∀ (teams : List TeamInfo) (spacesOf : String → List SpaceInfo)
        (foldersOf : String → List FolderInfo) (listsOf : String → List ListInfo),
      getWorkspaceStructure (okWsBackend teams spacesOf foldersOf listsOf)
        = Except.ok (specWorkspaceTree teams spacesOf foldersOf listsOf))
    ∧ getWorkspaceStructure (okWsBackend exWsTeams exWsSpaces exWsFolders exWsLists)
        = Except.ok
          [ ⟨"t1", "T1", "c1", "a1",
              [⟨"s", "S", [⟨"f", "F", [⟨"l1", "L1"⟩]⟩], [⟨"l2", "L2"⟩]⟩]⟩,
            ⟨"t2", "T2", "c2", "a2",
              [⟨"s", "S", [⟨"f", "F", [⟨"l1", "L1"⟩]⟩], [⟨"l2", "L2"⟩]⟩]⟩ ] := by
  constructor
  · intro teams spacesOf foldersOf listsOf
    show List.mapM _ teams = _
    have h1 : ∀ s : SpaceInfo,
        assembleSpace (okWsBackend teams spacesOf foldersOf listsOf) s
          = Except.ok (specSpaceOut foldersOf listsOf s) :=
      assembleSpace_okBackend teams spacesOf foldersOf listsOf
    simp only [h1, mapM_ok_map]
    rw [show (okWsBackend teams spacesOf foldersOf listsOf).spaces
        = fun tid => Except.ok (spacesOf tid) from rfl]
    exact mapM_ok_map _ teams
  · rfl

/-- C3, counterexample: the claim requires a synchronous validation
failure for scope space also when team_id is absent (space_id with
team_id). On the code, a space-scope invocation with a space id but no
team id passes validation and dispatch reaches searchTasks with the
literal team-id string undefined, so no failure occurs. -/
theorem C3_team_id_unvalidated_counterexample :
    argsSpaceNoTeam.team_id = none
    ∧ dispatchSearchTasks argsSpaceNoTeam
        = Except.ok ("undefined",
            { query := none, page := none, include_closed := none,
              assignees := none, statuses := none, tags := none,
              due_date_gt := none, due_date_lt := none,
              space_ids := some [JVal.str "s1"], folder_ids := none,
              list_ids := none }) :=
  ⟨rfl, rfl⟩

/-- C3, amended: the dispatcher fails synchronously with a descriptive
error, before reaching searchTasks, whenever the scope-specific primary
identifier is falsy: team_id for scope workspace, space_id for scope
space, folder_id for scope folder, list_id for scope list (team_id is
not validated in the latter three scopes). The last conjunct renders
the before-any-network-call part: when validation fails, the tool
response is the same error envelope for every client, so no downstream
operation is consulted; in particular scope space with no space_id
fails validation with no network call. -/
theorem C3_scope_validation_amended :
    (∀ a : ToolArgs, a.scope = some "workspace" → jsTruthyStr a.team_id = false →
      dispatchSearchTasks a = Except.error "team_id is required for workspace scope")
    ∧ (∀ a : ToolArgs, a.scope = some "space" → jsTruthyStr a.space_id = false →
      dispatchSearchTasks a = Except.error "space_id is required for space scope")
    ∧ (∀ a : ToolArgs, a.scope = some "folder" → jsTruthyStr a.folder_id = false →
      dispatchSearchTasks a = Except.error "folder_id is required for folder scope")
    ∧ (∀ a : ToolArgs, a.scope = some "list" → jsTruthyStr a.list_id = false →
      dispatchSearchTasks a = Except.error "list_id is required for list scope")
    ∧ (∀ (c : Client) (a : ToolArgs) (e : String), dispatchSearchTasks a = Except.error e →
      handleToolCall c "clickup_search_tasks" a
        = { content := [⟨"text", "Error: " ++ e⟩], isError := true }) := by
  refine ⟨?_, ?_, ?_, ?_, ?_⟩
  · intro a h1 h2
    unfold dispatchSearchTasks
    rw [h1]
    simp [h2]
  · intro a h1 h2
    unfold dispatchSearchTasks
    rw [h1]
    simp [h2]
  · intro a h1 h2
    unfold dispatchSearchTasks
    rw [h1]
    simp [h2]
  · intro a h1 h2
    unfold dispatchSearchTasks
    rw [h1]
    simp [h2]
  · intro c a e h
    unfold handleToolCall dispatchTool
    simp only [h]
    rfl

/-- C3, witness: scope space with no space_id is rejected by validation
and, for the all-successful client, the response is the error envelope
independent of any backend behaviour. -/
theorem C3_scope_validation_witness :
    dispatchSearchTasks argsSpaceNoSpaceId
      = Except.error "space_id is required for space scope"
    ∧ handleToolCall okClient "clickup_search_tasks" argsSpaceNoSpaceId
      = { content := [⟨"text", "Error: space_id is required for space scope"⟩],
          isError := true } := by
  have h := C3_scope_validation_amended
  have h1 := h.2.1 argsSpaceNoSpaceId rfl rfl
  exact ⟨h1, h.2.2.2.2 okClient argsSpaceNoSpaceId _ h1⟩

/-- C10: for scope space, folder and list, the dispatcher validates
only the scope-specific identifier and never team_id: when team_id is
absent and the scope identifier is truthy, no synchronous validation
failure occurs; searchTasks is reached with the team-id string
undefined, and the GET it issues has path /team/undefined/task,
containing the literal text undefined in place of the team identifier
(the runtime erasure of the non-null assertion typedArgs.team_id!
interpolated into the path template). -/
theorem C10_team_id_unchecked :
    ∀ a : ToolArgs, a.team_id = none →
      ((a.scope = some "space" → jsTruthyStr a.space_id = true →
        dispatchSearchTasks a = Except.ok ("undefined",
            { searchParamsOf a with space_ids := some [JVal.str (a.space_id.getD "")] })
          ∧ (searchTasksHttpReq "undefined"
              { searchParamsOf a with
                  space_ids := some [JVal.str (a.space_id.getD "")] }).method = "GET"
          ∧ (searchTasksHttpReq "undefined"
              { searchParamsOf a with
                  space_ids := some [JVal.str (a.space_id.getD "")] }).path
            = "/team/undefined/task")
      ∧ (a.scope = some "folder" → jsTruthyStr a.folder_id = true →
        dispatchSearchTasks a = Except.ok ("undefined",
            { searchParamsOf a with folder_ids := some [JVal.str (a.folder_id.getD "")] })
          ∧ (searchTasksHttpReq "undefined"
              { searchParamsOf a with
                  folder_ids := some [JVal.str (a.folder_id.getD "")] }).path
            = "/team/undefined/task")
      ∧ (a.scope = some "list" → jsTruthyStr a.list_id = true →
        dispatchSearchTasks a = Except.ok ("undefined",
            { searchParamsOf a with list_ids := some [JVal.str (a.list_id.getD "")] })
          ∧ (searchTasksHttpReq "undefined"
              { searchParamsOf a with
                  list_ids := some [JVal.str (a.list_id.getD "")] }).path
            = "/team/undefined/task")) := by
  intro a hteam
  refine ⟨?_, ?_, ?_⟩
  · intro hs htr
    refine ⟨?_, rfl, rfl⟩
    unfold dispatchSearchTasks
    rw [hs, hteam]
    simp [htr, jsTemplate]
  · intro hs htr
    refine ⟨?_, rfl⟩
    unfold dispatchSearchTasks
    rw [hs, hteam]
    simp [htr, jsTemplate]
  · intro hs htr
    refine ⟨?_, rfl⟩
    unfold dispatchSearchTasks
    rw [hs, hteam]
    simp [htr, jsTemplate]

/-- C10, witness: the space-scope instance with space id s1 and no
team id reaches searchTasks with team-id string undefined and path
/team/undefined/task. -/
theorem C10_team_id_unchecked_witness :
    dispatchSearchTasks argsSpaceNoTeam = Except.ok ("undefined",
        { searchParamsOf argsSpaceNoTeam with space_ids := some [JVal.str "s1"] })
      ∧ (searchTasksHttpReq "undefined"
          { searchParamsOf argsSpaceNoTeam with
              space_ids := some [JVal.str "s1"] }).method = "GET"
      ∧ (searchTasksHttpReq "undefined"
          { searchParamsOf argsSpaceNoTeam with
              space_ids := some [JVal.str "s1"] }).path = "/team/undefined/task" :=
  (C10_team_id_unchecked argsSpaceNoTeam rfl).1 rfl rfl

/-- C4: the partial-update object contains exactly the fields the
caller supplied: each scalar field is present with the supplied value
exactly when the argument is present (so an omitted argument is absent,
never null); assignees_add and assignees_rem collapse into a single
assignees object with the optional add and rem sides, present exactly
when at least one side was supplied, and tags likewise; and every entry
of the object carries one of the known keys with a value that is
neither null nor the undefined value (so JSON serialization keeps
exactly the supplied fields). -/
theorem C4_update_payload_exact_fields (a : ToolArgs) :
    getField (buildUpdatePayload a) "name" = a.name.map JVal.str
    ∧ getField (buildUpdatePayload a) "description" = a.description.map JVal.str
    ∧ getField (buildUpdatePayload a) "markdown_description"
        = a.markdown_description.map JVal.str
    ∧ getField (buildUpdatePayload a) "status" = a.status.map JVal.str
    ∧ getField (buildUpdatePayload a) "priority" = a.priority.map JVal.num
    ∧ getField (buildUpdatePayload a) "due_date" = a.due_date.map JVal.num
    ∧ getField (buildUpdatePayload a) "time_estimate" = a.time_estimate.map JVal.num
    ∧ getField (buildUpdatePayload a) "archived" = a.archived.map JVal.bool
    ∧ getField (buildUpdatePayload a) "assignees"
        = (if a.assignees_add.isSome || a.assignees_rem.isSome then
            some (JVal.obj (optEntry "add" JVal.arr a.assignees_add
              ++ optEntry "rem" JVal.arr a.assignees_rem))
          else none)
    ∧ getField (buildUpdatePayload a) "tags"
        = (if a.tags_add.isSome || a.tags_rem.isSome then
            some (JVal.obj (optEntry "add" JVal.arr a.tags_add
              ++ optEntry "rem" JVal.arr a.tags_rem))
          else none)
    ∧ (∀ (k : String) (v : JVal), (k, v) ∈ buildUpdatePayload a →
        k ∈ updateTaskKeys ∧ v ≠ JVal.null ∧ v ≠ JVal.undefined) := by
  refine ⟨?_, ?_, ?_, ?_, ?_, ?_, ?_, ?_, ?_, ?_, ?_⟩
  case _ =>
    simp (disch := decide) only [buildUpdatePayload, getField_append,
      getField_optEntry_self, getField_optEntry_ne, getField_ite_ne]
    cases a.name <;> simp
  case _ =>
    simp (disch := decide) only [buildUpdatePayload, getField_append,
      getField_optEntry_self, getField_optEntry_ne, getField_ite_ne]
    cases a.description <;> simp
  case _ =>
    simp (disch := decide) only [buildUpdatePayload, getField_append,
      getField_optEntry_self, getField_optEntry_ne, getField_ite_ne]
    cases a.markdown_description <;> simp
  case _ =>
    simp (disch := decide) only [buildUpdatePayload, getField_append,
      getField_optEntry_self, getField_optEntry_ne, getField_ite_ne]
    cases a.status <;> simp
  case _ =>
    simp (disch := decide) only [buildUpdatePayload, getField_append,
      getField_optEntry_self, getField_optEntry_ne, getField_ite_ne]
    cases a.priority <;> simp
  case _ =>
    simp (disch := decide) only [buildUpdatePayload, getField_append,
      getField_optEntry_self, getField_optEntry_ne, getField_ite_ne]
    cases a.due_date <;> simp
  case _ =>
    simp (disch := decide) only [buildUpdatePayload, getField_append,
      getField_optEntry_self, getField_optEntry_ne, getField_ite_ne]
    cases a.time_estimate <;> simp
  case _ =>
    simp (disch := decide) only [buildUpdatePayload, getField_append,
      getField_optEntry_self, getField_optEntry_ne, getField_ite_ne]
    cases a.archived <;> simp
  case _ =>
    simp (disch := decide) only [buildUpdatePayload, getField_append,
      getField_optEntry_self, getField_optEntry_ne, getField_ite_self,
      getField_ite_ne]
    simp
  case _ =>
    simp (disch := decide) only [buildUpdatePayload, getField_append,
      getField_optEntry_self, getField_optEntry_ne, getField_ite_self,
      getField_ite_ne]
    simp
  case _ =>
    intro k v h
    simp only [buildUpdatePayload, List.mem_append] at h
    rcases h with ((((((((h | h) | h) | h) | h) | h) | h) | h) | h) | h
    all_goals first
      | (obtain ⟨hk, x, hv⟩ := mem_optEntry h
         subst hk
         subst hv
         refine ⟨by simp [updateTaskKeys], by simp, by simp⟩)
      | (split at h
         · simp only [List.mem_singleton, Prod.mk.injEq] at h
           obtain ⟨hk, hv⟩ := h
           subst hk
           subst hv
           refine ⟨by simp [updateTaskKeys], by simp, by simp⟩
         · simp at h)

/-- C4, witness: the sample update supplying a name, one assignee to
add and one tag to remove produces exactly a name field, a collapsed
assignees object with only the add side, and a collapsed tags object
with only the rem side; the omitted description is absent, and the name
entry is a well-formed non-null member. -/
theorem C4_update_payload_witness :
    getField (buildUpdatePayload argsUpdateSample) "name" = some (JVal.str "N")
    ∧ getField (buildUpdatePayload argsUpdateSample) "description" = none
    ∧ getField (buildUpdatePayload argsUpdateSample) "assignees"
        = some (JVal.obj [("add", JVal.arr [JVal.num 1])])
    ∧ getField (buildUpdatePayload argsUpdateSample) "tags"
        = some (JVal.obj [("rem", JVal.arr [JVal.str "x"])])
    ∧ ("name" ∈ updateTaskKeys ∧ JVal.str "N" ≠ JVal.null
        ∧ JVal.str "N" ≠ JVal.undefined) := by
  have h := C4_update_payload_exact_fields argsUpdateSample
  refine ⟨h.1, h.2.1, h.2.2.2.2.2.2.2.2.1, h.2.2.2.2.2.2.2.2.2.1, ?_⟩
  apply h.2.2.2.2.2.2.2.2.2.2 "name" (JVal.str "N")
  rw [show buildUpdatePayload argsUpdateSample
      = [ ("name", JVal.str "N"),
          ("assignees", JVal.obj [("add", JVal.arr [JVal.num 1])]),
          ("tags", JVal.obj [("rem", JVal.arr [JVal.str "x"])]) ] from rfl]
  exact List.mem_cons_self _ _

/-- C5: when the caller leaves archived, page or include_closed unset,
listTasks defaults them in its query-parameter map to archived false,
page 0 and include_closed false (also visible in the serialized query
pairs); searchTasks applies the same defaulting to its unset
parameters, which are page and include_closed (archived is not among
the parameters searchTasks accepts or forwards). -/
theorem C5_list_search_defaults :
    (∀ p : ListTasksRequest, p.archived = none →
      getQP (listTasksQueryParams p) "archived" = some (JVal.bool false)
      ∧ ("archived", "false") ∈ serializeQuery (listTasksQueryParams p))
    ∧ (∀ p : ListTasksRequest, p.page = none →
      getQP (listTasksQueryParams p) "page" = some (JVal.num 0)
      ∧ ("page", "0") ∈ serializeQuery (listTasksQueryParams p))
    ∧ (∀ p : ListTasksRequest, p.include_closed = none →
      getQP (listTasksQueryParams p) "include_closed" = some (JVal.bool false)
      ∧ ("include_closed", "false") ∈ serializeQuery (listTasksQueryParams p))
    ∧ (∀ p : SearchTasksRequest, p.page = none →
      getQP (searchTasksQueryParams p) "page" = some (JVal.num 0)
      ∧ ("page", "0") ∈ serializeQuery (searchTasksQueryParams p))
    ∧ (∀ p : SearchTasksRequest, p.include_closed = none →
      getQP (searchTasksQueryParams p) "include_closed" = some (JVal.bool false)
      ∧ ("include_closed", "false") ∈ serializeQuery (searchTasksQueryParams p)) := by
  refine ⟨?_, ?_, ?_, ?_, ?_⟩ <;> intro p h <;> refine ⟨?_, ?_⟩
  · simp [listTasksQueryParams, getQP, h]
  · simp only [listTasksQueryParams, h, serializeQuery, List.map_cons,
      List.map_nil, List.flatten_cons, List.flatten_nil]
    exact List.mem_append_right _ (List.mem_append_left _ (by decide))
  · simp [listTasksQueryParams, getQP, h]
  · simp only [listTasksQueryParams, h, serializeQuery, List.map_cons,
      List.map_nil, List.flatten_cons, List.flatten_nil]
    exact List.mem_append_left _ (by decide)
  · simp [listTasksQueryParams, getQP, h]
  · simp only [listTasksQueryParams, h, serializeQuery, List.map_cons,
      List.map_nil, List.flatten_cons, List.flatten_nil]
    exact List.mem_append_right _ (List.mem_append_right _ (List.mem_append_left _ (by decide)))
  · simp [searchTasksQueryParams, getQP, h]
  · simp only [searchTasksQueryParams, h, serializeQuery, List.map_cons,
      List.map_nil, List.flatten_cons, List.flatten_nil]
    exact List.mem_append_right _ (List.mem_append_left _ (by decide))
  · simp [searchTasksQueryParams, getQP, h]
  · simp only [searchTasksQueryParams, h, serializeQuery, List.map_cons,
      List.map_nil, List.flatten_cons, List.flatten_nil]
    exact List.mem_append_right _ (List.mem_append_right _ (List.mem_append_left _ (by decide)))

/-- C5, witness: with every parameter unset, the list query map carries
archived false, page 0 and include_closed false, and the search query
map carries page 0 and include_closed false. -/
theorem C5_list_search_defaults_witness :
    (getQP (listTasksQueryParams defaultListParams) "archived"
        = some (JVal.bool false)
      ∧ ("archived", "false") ∈ serializeQuery (listTasksQueryParams defaultListParams))
    ∧ (getQP (listTasksQueryParams defaultListParams) "page" = some (JVal.num 0)
      ∧ ("page", "0") ∈ serializeQuery (listTasksQueryParams defaultListParams))
    ∧ (getQP (searchTasksQueryParams defaultSearchParams) "page" = some (JVal.num 0)
      ∧ ("page", "0") ∈ serializeQuery (searchTasksQueryParams defaultSearchParams))
    ∧ (getQP (searchTasksQueryParams defaultSearchParams) "include_closed"
        = some (JVal.bool false)
      ∧ ("include_closed", "false")
          ∈ serializeQuery (searchTasksQueryParams defaultSearchParams)) := by
  have h := C5_list_search_defaults
  exact ⟨h.1 defaultListParams rfl, h.2.1 defaultListParams rfl,
    h.2.2.2.1 defaultSearchParams rfl, h.2.2.2.2 defaultSearchParams rfl⟩

/-- C6, counterexample: the claim states that every dependency-add
request specifies at least one direction field, equivalently that an
invocation supplying neither field does not produce a request body with
both fields absent. The dispatcher performs no such validation: with
neither field supplied, the body serializes to the empty JSON object
(both fields absent), and the invocation still reaches addDependency
and succeeds against a successful backend instead of failing
validation. -/
theorem C6_direction_invariant_counterexample :
    argsDepNeither.depends_on = none
    ∧ argsDepNeither.dependency_of = none
    ∧ jsonStringify (depBody argsDepNeither) = "\x7b\x7d"
    ∧ handleToolCall okClient "clickup_add_dependency" argsDepNeither
        = { content := [⟨"text", "\x7b\x7d"⟩], isError := false } :=
  ⟨rfl, rfl, by decide, rfl⟩

/-- C6, amended: the dispatcher enforces no direction invariant. The
serialized dependency body contains exactly the direction fields the
caller supplied (a supplied side appears, an omitted side is absent);
when neither side is supplied the body serializes to the empty JSON
object, and the request is still issued: whatever result addDependency
returns becomes a success response, with no validation in between. -/
theorem C6_dependency_direction_amended :
    (∀ a : ToolArgs,
      jsonStringifyFields (depBodyFields a)
        = (optEntry "depends_on" JVal.str a.depends_on).map
            (fun f => jsonQuote f.1 ++ ":" ++ jsonStringify f.2)
          ++ (optEntry "dependency_of" JVal.str a.dependency_of).map
            (fun f => jsonQuote f.1 ++ ":" ++ jsonStringify f.2))
    ∧ (∀ a : ToolArgs, a.depends_on = none → a.dependency_of = none →
        jsonStringify (depBody a) = "\x7b\x7d")
    ∧ (∀ (c : Client) (a : ToolArgs) (r : JVal),
        c.addDependency (jsTemplate a.task_id) (depBody a) = Except.ok r →
        handleToolCall c "clickup_add_dependency" a
          = { content := [⟨"text", jsonStringifyPretty r⟩], isError := false }) := by
  refine ⟨?_, ?_, ?_⟩
  · intro a
    cases h1 : a.depends_on <;> cases h2 : a.dependency_of <;>
      simp [depBodyFields, jsonStringifyFields, optEntry, joptStr, JVal.isUndefined,
        h1, h2]
  · intro a h1 h2
    simp only [depBody, depBodyFields, h1, h2]
    decide
  · intro c a r h
    unfold handleToolCall dispatchTool
    simp only [h]
    rfl

/-- C6, witness: instantiating the amended claim at the invocation
supplying neither direction field and the all-successful backend. -/
theorem C6_dependency_direction_witness :
    jsonStringify (depBody argsDepNeither) = "\x7b\x7d"
    ∧ handleToolCall okClient "clickup_add_dependency" argsDepNeither
        = { content := [⟨"text", "\x7b\x7d"⟩], isError := false } := by
  have h := C6_dependency_direction_amended
  exact ⟨h.2.1 argsDepNeither rfl rfl,
    h.2.2 okClient argsDepNeither (JVal.obj []) rfl⟩

/-- C7: whenever a response carries a status outside the success range
200 to 299, the client fails with an error whose message is exactly the
template ClickUp API error: status statusText, a newline, and the full
parsed response body (re-serialized with two-space indentation by
JSON.stringify(data, null, 2), so nothing of the body is swallowed or
summarized). The error therefore carries the numeric status, the
status text and the whole body. -/
theorem C7_api_error_carries_status_and_body :
    ∀ (fetch : Fetch) (method path : String) (body : Option JVal)
      (qp : Option (List (String × JVal))) (status : Nat) (statusText : String)
      (data : JVal),
      fetch (buildReq method path body qp)
        = FetchOutcome.response status statusText data →
      ¬ (200 ≤ status ∧ status ≤ 299) →
      request fetch method path body qp
        = Except.error ("ClickUp API error: " ++ toString status ++ " "
            ++ statusText ++ "\n" ++ jsonStringifyPretty data) := by
  intro fetch method path body qp status statusText data hresp hstatus
  unfold request
  simp only [hresp]
  rw [if_neg hstatus]

/-- C7, witness: a 404 Not Found with body err: Task not found surfaces
as an error whose message embeds the status code 404, the text Not
Found, and the body text Task not found. -/
theorem C7_api_error_witness :
    request fetch404 "GET" "/task/abc" none none
      = Except.error
          ("ClickUp API error: 404 Not Found\n\x7b\n  \"err\": \"Task not found\"\n\x7d") := by
  have h := C7_api_error_carries_status_and_body fetch404 "GET" "/task/abc"
    none none 404 "Not Found" (JVal.obj [("err", JVal.str "Task not found")])
    rfl (by decide)
  rw [h]
  rfl

/-- C8: for every space and every error value, a failure of the folder
fetch is absorbed by getFolders into the empty folder list (so the
space assembles with no folders), while a failure of the space-list
fetch propagates out of getLists and fails the whole per-space
assembly with the same error. -/
theorem C8_folder_list_failure_asymmetry :
    (∀ (b : WsBackend) (sid e : String),
      b.spaceFolders sid = Except.error e → getFolders b sid = [])
    ∧ (∀ (b : WsBackend) (sid e : String),
      b.spaceLists sid = Except.error e → getLists b sid = Except.error e)
    ∧ (∀ (b : WsBackend) (s : SpaceInfo) (e : String),
      b.spaceLists s.id = Except.error e → assembleSpace b s = Except.error e)
    ∧ (∀ (b : WsBackend) (s : SpaceInfo) (e : String) (ls : List ListInfo),
      b.spaceFolders s.id = Except.error e → b.spaceLists s.id = Except.ok ls →
      assembleSpace b s
        = Except.ok { id := s.id, name := s.name, folders := [], lists := ls }) := by
  refine ⟨?_, ?_, ?_, ?_⟩
  · intro b sid e h
    unfold getFolders
    simp only [h]
  · intro b sid e h
    unfold getLists
    exact h
  · intro b s e h
    unfold assembleSpace getLists
    simp only [h]
    rfl
  · intro b s e ls h1 h2
    unfold assembleSpace getLists getFolders
    simp only [h1, h2]
    show Except.ok _ = _
    simp

/-- C8, witness: with a backend whose folder fetch fails, the space
assembles with no folders and all lists folderless; with a backend
whose space-list fetch fails, the per-space assembly fails with the
same error. -/
theorem C8_folder_list_failure_witness :
    getFolders failingFoldersBackend "s" = []
    ∧ getLists failingListsBackend "s" = Except.error "boom"
    ∧ assembleSpace failingFoldersBackend { id := "s", name := "S" }
        = Except.ok ⟨"s", "S", [], [⟨"l1", "L1"⟩]⟩
    ∧ assembleSpace failingListsBackend { id := "s", name := "S" }
        = Except.error "boom" := by
  have h := C8_folder_list_failure_asymmetry
  exact ⟨h.1 failingFoldersBackend "s" "no folder feature" rfl,
    h.2.1 failingListsBackend "s" "boom" rfl,
    h.2.2.2 failingFoldersBackend { id := "s", name := "S" } "no folder feature"
      [ { id := "l1", name := "L1" } ] rfl rfl,
    h.2.2.1 failingListsBackend { id := "s", name := "S" } "boom" rfl⟩

/-- C9: for every client behaviour, tool name and argument bag, the
handler is a total function into the response envelope: the response is
always a single text content item, either a success or an error reading
Error: message with isError set; every error value produced by the
dispatch switch or a downstream operation is converted into that error
envelope; and an unknown tool name, one outside the static catalog,
yields the error envelope reading Unknown tool. No invocation escapes
the boundary as an uncaught fault. -/
theorem C9_error_envelope_boundary :
    (∀ (c : Client) (name : String) (a : ToolArgs),
      (∃ t, handleToolCall c name a
          = { content := [⟨"text", t⟩], isError := false })
      ∨ (∃ m, handleToolCall c name a
          = { content := [⟨"text", "Error: " ++ m⟩], isError := true }))
    ∧ (∀ (c : Client) (name : String) (a : ToolArgs) (e : String),
      dispatchTool c name a = Except.error e →
      handleToolCall c name a
        = { content := [⟨"text", "Error: " ++ e⟩], isError := true })
    ∧ (∀ (c : Client) (name : String) (a : ToolArgs),
      name ∉ toolNames →
      handleToolCall c name a
        = { content := [⟨"text", "Error: Unknown tool: " ++ name⟩],
            isError := true }) := by
  refine ⟨?_, ?_, ?_⟩
  · intro c name a
    cases h : dispatchTool c name a with
    | ok t =>
        left
        exact ⟨t, by unfold handleToolCall; rw [h]⟩
    | error e =>
        right
        exact ⟨e, by unfold handleToolCall; rw [h]⟩
  · intro c name a e h
    unfold handleToolCall
    rw [h]
  · intro c name a h
    have hd : dispatchTool c name a = Except.error ("Unknown tool: " ++ name) := by
      unfold dispatchTool
      split
      all_goals first
        | rfl
        | exact absurd (by decide) h
    unfold handleToolCall
    rw [hd]
    show ToolResponse.mk [⟨"text", "Error: " ++ ("Unknown tool: " ++ name)⟩] true = _
    rw [← String.append_assoc]
    rfl

/-- C9, witness: an unknown tool name against the all-successful
backend yields the uniform error envelope. -/
theorem C9_error_envelope_witness :
    handleToolCall okClient "bogus_tool" {}
      = { content := [⟨"text", "Error: Unknown tool: bogus_tool"⟩],
          isError := true } :=
  C9_error_envelope_boundary.2.2 okClient "bogus_tool" {} (by decide)

end ClickUpMCP
